import Mathlib

/-!
Verification of the k8sexec package (k8sexec.go, throttle.go) against its
specification.  The Go code is shallowly embedded: pure functions become Lean
functions, the Kubernetes API and the remote exec stream become explicit
environment values, and Go `error` values become an inductive type mirroring
the `errors.As` / `errors.Is` unwrapping discipline.
-/

namespace K8sExec

/-! ### Exit codes (k8sexec.go lines 54-116) -/

/-- `ExitCode` is Go's `type ExitCode int`. -/
abbrev ExitCode := Int

def ExecutionTimeOut : ExitCode := -2

def InternalAppError : ExitCode := -1

def Success : ExitCode := 0

def GeneralError : ExitCode := 1

def IncorrectUsage : ExitCode := 2

def CommandCannotExecute : ExitCode := 126

def CommandNotFound : ExitCode := 127

def InvalidArgumentToExit : ExitCode := 128

def ScriptTerminatedByControlC : ExitCode := 130

def ExitStatusOutOfRange : ExitCode := 255

/-- The Go map literal `exitCodeDescriptions` as an association list
(k8sexec.go lines 89-116). -/
def exitCodeTable : List (Int × String) :=
  [(-1, "Internal app error"),
   (0, "Success"),
   (1, "General error, unspecified error"),
   (2, "Incorrect usage or syntax of the command"),
   (126, "Command cannot execute"),
   (127, "Command not found"),
   (128, "Invalid argument to exit"),
   (130, "Script terminated by Control-C (SIGINT)"),
   (255, "Exit status out of range"),
   (129, "Fatal error signal 1 (SIGHUP)"),
   (131, "Fatal error signal 3 (SIGQUIT)"),
   (132, "Fatal error signal 4 (SIGILL)"),
   (133, "Fatal error signal 5 (SIGTRAP)"),
   (134, "Fatal error signal 6 (SIGABRT/SIGIOT)"),
   (135, "Fatal error signal 7 (SIGBUS)"),
   (136, "Fatal error signal 8 (SIGFPE)"),
   (137, "Fatal error signal 9 (SIGKILL)"),
   (138, "Fatal error signal 10 (SIGUSR1)"),
   (139, "Fatal error signal 11 (SIGSEGV)"),
   (140, "Fatal error signal 12 (SIGUSR2)"),
   (141, "Fatal error signal 13 (SIGPIPE)"),
   (142, "Fatal error signal 14 (SIGALRM)"),
   (143, "Fatal error signal 15 (SIGTERM)")]

/-- Go map lookup `exitCodeDescriptions[code]`: `none` models `ok == false`. -/
def exitCodeDescriptions (code : Int) : Option String :=
  (exitCodeTable.find? (fun kv => kv.1 == code)).map (fun kv => kv.2)

/-! ### Go error values

`GoError` models the Go `error` values that reach this package:
`exec2.CodeExitError` (carrying an exit code), `context.DeadlineExceeded`,
plain errors, and wrapping.  `asCodeExit` models
`errors.As(err, &exec2.CodeExitError{})`, `isDeadlineExceeded` models
`errors.Is(err, context.DeadlineExceeded)`. -/
inductive GoError where
  | codeExit (code : Int) : GoError
  | deadlineExceeded : GoError
  | errMsg (msg : String) : GoError
  | wrapped (msg : String) (inner : GoError) : GoError
deriving DecidableEq, Repr

def asCodeExit : GoError → Option Int
  | .codeExit c => some c
  | .deadlineExceeded => none
  | .errMsg _ => none
  | .wrapped _ e => asCodeExit e

def isDeadlineExceeded : GoError → Bool
  | .codeExit _ => false
  | .deadlineExceeded => true
  | .errMsg _ => false
  | .wrapped _ e => isDeadlineExceeded e

/-- `err.Error()`.  The exact text of wrapped messages is not relied on by any
claim; CodeExitError's text follows k8s client conventions. -/
def GoError.message : GoError → String
  | .codeExit c => "command terminated with exit code " ++ toString c
  | .deadlineExceeded => "context deadline exceeded"
  | .errMsg m => m
  | .wrapped m e => m ++ ": " ++ e.message

/-! ### GetExitCode / GetExitCodeDescription (k8sexec.go lines 120-139) -/
def GetExitCode (err : GoError) : ExitCode × String :=
  match asCodeExit err with
  | none => (InternalAppError, "")
  | some code =>
    match exitCodeDescriptions code with
    | none => (code, "Exit code " ++ toString code ++ " description not found!")
    | some d => (code, d)

def GetExitCodeDescription (code : ExitCode) : String :=
  match exitCodeDescriptions code with
  | none => ""
  | some d => d

/-! ### Line splitting and ExecutionStatus (k8sexec.go lines 36-43, 488-490)

`goSplitLines` embeds Go's `strings.Split(s, "\n")`: the string is split
around every newline, so a string with n newlines yields n+1 pieces and the
empty string yields `[""]`. -/
def splitNl : List Char → List (List Char)
  | [] => [[]]
  | c :: cs =>
    if c = '\n' then [] :: splitNl cs
    else
      match splitNl cs with
      | [] => [[c]]
      | h :: t => (c :: h) :: t

def goSplitLines (s : String) : List String :=
  (splitNl s.data).map (fun l => String.mk l)

structure ExecutionStatus where
  Pod : String
  Container : String
  RetCode : ExitCode
  Error : List String
  Stdout : List String
  Stderr : List String
deriving DecidableEq, Repr

def NewExecutionStatus (pod : String) (container : String) (retCode : ExitCode)
    (error : String) (stdout : String) (stderr : String) : ExecutionStatus :=
  { Pod := pod, Container := container, RetCode := retCode,
    Error := goSplitLines error, Stdout := goSplitLines stdout,
    Stderr := goSplitLines stderr }

/-! ### TokenBucket (throttle.go)

The bucket's channel is modelled by its occupancy count; `capacity` is the
channel capacity `burst`.  A refill tick and a (completed) `Wait` receive are
the two events that can change the count; an arbitrary interleaving of the
refill goroutine and concurrent callers is an arbitrary event list.  A `Wait`
on an empty bucket blocks, changing nothing until a token arrives, so as an
event it is a no-op on the state. -/
structure TokenBucket where
  capacity : Nat
  tokens : Nat
deriving DecidableEq, Repr

/-- `NewTokenBucket(rate, burst)`: channel of capacity `burst`, pre-filled
with `burst` tokens.  `rate` only sets the real-time tick frequency. -/
def NewTokenBucket (_rate : Nat) (burst : Nat) : TokenBucket :=
  { capacity := burst, tokens := burst }

/-- One tick of the refill goroutine: under the mutex,
`if len(tokens) < cap(tokens) { tokens <- struct{}{} }`. -/
def refillTick (tb : TokenBucket) : TokenBucket :=
  if tb.tokens < tb.capacity then { tb with tokens := tb.tokens + 1 } else tb

/-- A completed `Wait()` receive: consumes one token when one is available;
otherwise the caller blocks and the state is unchanged. -/
def Wait (tb : TokenBucket) : TokenBucket :=
  if 0 < tb.tokens then { tb with tokens := tb.tokens - 1 } else tb

inductive BucketEvent where
  | wait : BucketEvent
  | tick : BucketEvent
deriving DecidableEq, Repr

def bucketStep (tb : TokenBucket) : BucketEvent → TokenBucket
  | .wait => Wait tb
  | .tick => refillTick tb

def runBucket (tb : TokenBucket) (es : List BucketEvent) : TokenBucket :=
  es.foldl bucketStep tb

/-! ### The exec stream (k8sexec.go lines 446-483)

One remote invocation is modelled by a `StreamEnv`: whether SPDY executor
creation fails, the result of `StreamWithContext` (`none` = clean exit), and
the bytes the remote process wrote to the stdout/stderr buffers before the
stream ended (on deadline expiry these are the partial captures). -/
structure StreamEnv where
  executorErr : Option GoError
  streamErr : Option GoError
  outWritten : String
  errWritten : String
deriving DecidableEq, Repr

/-- `k8s.exec(...)`: result is `((retCode, err), stdoutBytes, stderrBytes)`.
On executor-creation failure nothing is streamed; otherwise a stream error
that is a `CodeExitError` yields its code, any other error yields
`InternalAppError`, and a clean exit yields `Success`. -/
def execStream (env : StreamEnv) : (ExitCode × Option GoError) × String × String :=
  match env.executorErr with
  | some e => ((InternalAppError, some e), "", "")
  | none =>
    match env.streamErr with
    | none => ((Success, none), env.outWritten, env.errWritten)
    | some e =>
      match asCodeExit e with
      | some c => ((c, some e), env.outWritten, env.errWritten)
      | none => ((InternalAppError, some e), env.outWritten, env.errWritten)

/-- `Exec` (k8sexec.go lines 497-521): runs the command under a deadline
derived from the caller's duration, remaps `context.DeadlineExceeded` to
`ExecutionTimeOut`, and packages the result. -/
def Exec (env : StreamEnv) (podName : String) (containerName : String) : ExecutionStatus :=
  let r := execStream env
  let errMessage := match r.1.2 with
    | none => ""
    | some e => e.message
  let retCode := match r.1.2 with
    | some e => if isDeadlineExceeded e then ExecutionTimeOut else r.1.1
    | none => r.1.1
  NewExecutionStatus podName containerName retCode errMessage r.2.1 r.2.2

/-- `ExecWithContext` (k8sexec.go lines 528-537): runs the command under the
caller's context and packages the result.  Note: unlike `Exec`, there is no
`errors.Is(err, context.DeadlineExceeded)` remapping in the source. -/
def ExecWithContext (env : StreamEnv) (podName : String) (containerName : String) : ExecutionStatus :=
  let r := execStream env
  let errMessage := match r.1.2 with
    | none => ""
    | some e => e.message
  NewExecutionStatus podName containerName r.1.1 errMessage r.2.1 r.2.2

/-! ### File probes and utility check (k8sexec.go lines 365-439)

The container's response to each argument vector is an environment function
`CmdEnv`.  `ReadFile` passes one shared `stdout` buffer to all of its (up to
four) attempts, so stdout accumulates across attempts; the trace component
records the argument vectors issued, in order. -/
def CmdEnv := List String → StreamEnv

/-- A single-quote character, written via its code point. -/
def sq : String := String.mk [Char.ofNat 39]

def catCmd (filePath : String) : List String := ["cat", filePath]

def sedCmd (filePath : String) : List String := ["sed", "", filePath]

def tailCmd (filePath : String) : List String := ["tail", "-n", "+1", filePath]

def shReadLoopCmd (filePath : String) : List String :=
  ["sh", "-c",
   "while IFS= read -r line; do echo \"$line\"; done < " ++ sq ++ filePath ++ sq]

/-- `ReadFile` (k8sexec.go lines 365-385).  Returns
`((stdout.String(), err), trace)` where `trace` lists the attempts issued. -/
def ReadFile (env : CmdEnv) (filePath : String) :
    (String × Option GoError) × List (List String) :=
  let r1 := execStream (env (catCmd filePath))
  if r1.1.1 = Success then ((r1.2.1, r1.1.2), [catCmd filePath]) else
  let r2 := execStream (env (sedCmd filePath))
  if r2.1.1 = Success then
    ((r1.2.1 ++ r2.2.1, r2.1.2), [catCmd filePath, sedCmd filePath]) else
  let r3 := execStream (env (tailCmd filePath))
  if r3.1.1 = Success then
    ((r1.2.1 ++ r2.2.1 ++ r3.2.1, r3.1.2),
     [catCmd filePath, sedCmd filePath, tailCmd filePath]) else
  let r4 := execStream (env (shReadLoopCmd filePath))
  ((r1.2.1 ++ r2.2.1 ++ r3.2.1 ++ r4.2.1, r4.1.2),
   [catCmd filePath, sedCmd filePath, tailCmd filePath, shReadLoopCmd filePath])

/-- `CheckUtilInContainer` (k8sexec.go lines 431-439): runs `[util]` and
reports presence unless the exit code is `CommandNotFound`,
`CommandCannotExecute` or `InternalAppError`. -/
def CheckUtilInContainer (env : CmdEnv) (util : String) : Bool :=
  let retCode := (execStream (env [util])).1.1
  retCode != CommandNotFound && retCode != CommandCannotExecute &&
    retCode != InternalAppError

/-! ### Timed model of the probe chains (k8sexec.go lines 365-439)

Each probe operation calls `context.WithTimeout(context.Background(), 5s)`
exactly once and passes that single context to every attempt it makes.  The
timed model makes the deadline bookkeeping explicit: an attempt started at
time `t` with remote duration `d` completes at `t + d` if that is within the
shared deadline, and otherwise is cut off at the deadline (or fails
immediately if the deadline has already passed), yielding a non-exit-code
context error, hence `InternalAppError`. -/
structure TimedCmd where
  duration : Nat
  retCode : ExitCode
deriving DecidableEq, Repr

structure AttemptRec where
  finish : Nat
  retCode : ExitCode
  timedOut : Bool
deriving DecidableEq, Repr

/-- `k8s.exec` under a context whose deadline is `dl`, started at time `t`. -/
def execT (dl : Nat) (t : Nat) (c : TimedCmd) : AttemptRec :=
  if t + c.duration ≤ dl then
    { finish := t + c.duration, retCode := c.retCode, timedOut := false }
  else
    { finish := max t dl, retCode := InternalAppError, timedOut := true }

/-- The fixed probe timeout: `5*time.Second`. -/
def probeTimeout : Nat := 5

/-- Timed `ReadFile`: one `context.WithTimeout` of 5 seconds at entry, shared
by all four attempts.  `env i` is the remote behaviour of attempt `i`;
returns the finish time and the per-attempt records. -/
def ReadFileT (env : Nat → TimedCmd) (t0 : Nat) : Nat × List AttemptRec :=
  let dl := t0 + probeTimeout
  let r1 := execT dl t0 (env 0)
  if r1.retCode = Success then (r1.finish, [r1]) else
  let r2 := execT dl r1.finish (env 1)
  if r2.retCode = Success then (r2.finish, [r1, r2]) else
  let r3 := execT dl r2.finish (env 2)
  if r3.retCode = Success then (r3.finish, [r1, r2, r3]) else
  let r4 := execT dl r3.finish (env 3)
  (r4.finish, [r1, r2, r3, r4])

/-- Timed `CheckIfFilePathIsReadable`: `stat -c %a` then, on failure, the
shell `test -r` fallback — both under the one 5-second context. -/
def CheckIfFilePathIsReadableT (env : Nat → TimedCmd) (t0 : Nat) : Nat × List AttemptRec :=
  let dl := t0 + probeTimeout
  let r1 := execT dl t0 (env 0)
  if r1.retCode = Success then (r1.finish, [r1]) else
  let r2 := execT dl r1.finish (env 1)
  (r2.finish, [r1, r2])

/-- Timed `CheckIfFilePathExists`: `stat` then, on failure, the shell
`[ -f ... ]` fallback — both under the one 5-second context. -/
def CheckIfFilePathExistsT (env : Nat → TimedCmd) (t0 : Nat) : Nat × List AttemptRec :=
  let dl := t0 + probeTimeout
  let r1 := execT dl t0 (env 0)
  if r1.retCode = Success then (r1.finish, [r1]) else
  let r2 := execT dl r1.finish (env 1)
  (r2.finish, [r1, r2])

/-! ### The namespace model and GetUniquePods (k8sexec.go lines 235-338)

A namespace state: the pods currently in the namespace, the three group
listings (deployments, stateful sets, daemon sets — each an
`Except`, since enumerating the groups themselves can fail), the set of
label selectors whose per-group pod listing fails, and whether the final
ground-truth pod listing fails.  A group is represented by its
`Spec.Selector.MatchLabels`; `mapToLabelSelector` (lines 235-241) turns that
map into a conjunction of `key=value` constraints, modelled here directly as
the list of required pairs.  The lister returns the pods whose labels
satisfy every constraint. -/
structure Pod where
  name : String
  labels : List (String × String)
deriving DecidableEq, Repr

structure Group where
  selector : List (String × String)
deriving DecidableEq, Repr

structure ClusterAPI where
  pods : List Pod
  deploymentsRes : Except String (List Group)
  statefulSetsRes : Except String (List Group)
  daemonSetsRes : Except String (List Group)
  failingSelectors : List (List (String × String))
  groundListingErr : Option String

/-- A pod matches a `MatchLabels` selector when it carries every required
`key=value` label. -/
def matchesSelector (p : Pod) (sel : List (String × String)) : Bool :=
  sel.all (fun kv => p.labels.contains kv)

/-- `k8s.GetPods(options)` with `options.LabelSelector` built from `sel`. -/
def listPodsBySelector (api : ClusterAPI) (sel : List (String × String)) :
    Except String (List Pod) :=
  if api.failingSelectors.contains sel then Except.error "listing failed"
  else Except.ok (api.pods.filter (fun p => matchesSelector p sel))

/-- The final ground-truth `Pods(...).List` with empty options. -/
def listAllPods (api : ClusterAPI) : Except String (List Pod) :=
  match api.groundListingErr with
  | some e => Except.error e
  | none => Except.ok api.pods

/-- One of the three `for _, group := range ...` loops: per group, list the
matching pods (a failed listing is swallowed by `continue`), keep the first
match as representative, and record every match's name in the membership
map.  Returns `(representatives, membership names)`. -/
def processGroups (api : ClusterAPI) : List Group → List Pod × List String
  | [] => ([], [])
  | g :: gs =>
    match listPodsBySelector api g.selector with
    | .error _ => processGroups api gs
    | .ok pods =>
      let rest := processGroups api gs
      (pods.take 1 ++ rest.1, pods.map (fun p => p.name) ++ rest.2)

/-- `GetUniquePods` (k8sexec.go lines 246-338).  Go returns the triple
`(int, []coreV1.Pod, error)`; error cases return `(0, nil, err)`. -/
def GetUniquePods (api : ClusterAPI) : Nat × List Pod × Option String :=
  match api.deploymentsRes with
  | .error e => (0, [], some e)
  | .ok deployments =>
    let dep := processGroups api deployments
    match api.statefulSetsRes with
    | .error e => (0, [], some e)
    | .ok statefulSets =>
      let ss := processGroups api statefulSets
      match api.daemonSetsRes with
      | .error e => (0, [], some e)
      | .ok daemonSets =>
        let ds := processGroups api daemonSets
        match listAllPods api with
        | .error e => (0, [], some e)
        | .ok podsList =>
          let standalone := podsList.filter (fun p =>
            !(dep.2.contains p.name) && !(ss.2.contains p.name) &&
              !(ds.2.contains p.name))
          (podsList.length, dep.1 ++ ss.1 ++ ds.1 ++ standalone, none)

/-- The pods of the namespace matching a group's selector, in listing order. -/
def groupMatches (api : ClusterAPI) (g : Group) : List Pod :=
  api.pods.filter (fun p => matchesSelector p g.selector)

/-- One representative (the first match) per group with at least one match. -/
def groupReps (api : ClusterAPI) (gs : List Group) : List Pod :=
  gs.filterMap (fun g => (groupMatches api g).head?)

/-- Whether the pod named `n` matches some group of `gs`. -/
def inSomeGroup (api : ClusterAPI) (gs : List Group) (n : String) : Bool :=
  gs.any (fun g => ((groupMatches api g).map (fun p => p.name)).contains n)

/-- The table's documented codes that lie in the POSIX range [0,255]
(all of `exitCodeTable`'s keys except `-1`). -/
def documentedCodes : List Int :=
  [0, 1, 2, 126, 127, 128, 129, 130, 131, 132, 133, 134, 135, 136, 137,
   138, 139, 140, 141, 142, 143, 255]

/-! ### Concrete namespace states and environments used as test inputs -/

/-- The spec's deduplication scenario: two replica groups whose selectors
each match 3 pods with one pod shared, plus one standalone pod. -/

def specScenarioApi : ClusterAPI :=
  { pods := [{ name := "unit-a-0", labels := [("g1", "y")] },
             { name := "unit-a-1", labels := [("g1", "y")] },
             { name := "unit-shared", labels := [("g1", "y"), ("g2", "y")] },
             { name := "unit-b-0", labels := [("g2", "y")] },
             { name := "unit-b-1", labels := [("g2", "y")] },
             { name := "standalone", labels := [] }],
    deploymentsRes := .ok [{ selector := [("g1", "y")] }, { selector := [("g2", "y")] }],
    statefulSetsRes := .ok [],
    daemonSetsRes := .ok [],
    failingSelectors := [],
    groundListingErr := none }

/-- Two deployments with the same selector matching the same single pod. -/

def dupSelectorApi : ClusterAPI :=
  { pods := [{ name := "unit-a", labels := [("app", "x")] }],
    deploymentsRes := .ok [{ selector := [("app", "x")] }, { selector := [("app", "x")] }],
    statefulSetsRes := .ok [],
    daemonSetsRes := .ok [],
    failingSelectors := [],
    groundListingErr := none }

/-- A namespace whose deployments enumeration fails. -/

def failingDeploymentsApi : ClusterAPI :=
  { pods := [],
    deploymentsRes := .error "deployments listing failed",
    statefulSetsRes := .ok [],
    daemonSetsRes := .ok [],
    failingSelectors := [],
    groundListingErr := none }

/-- A container lacking cat/sed/tail (exit 127) but with a working shell. -/

def shellOnlyEnv : CmdEnv := fun cmd =>
  if cmd.head? = some "sh" then
    { executorErr := none, streamErr := none, outWritten := "DATA", errWritten := "" }
  else
    { executorErr := none, streamErr := some (.codeExit 127),
      outWritten := "", errWritten := "not found" }

/-- A container whose `cat` writes partial stdout and then fails with exit
code 1, while every other command succeeds and writes `DATA`. -/

def junkThenDataEnv : CmdEnv := fun cmd =>
  if cmd = catCmd "/a" then
    { executorErr := none, streamErr := some (.codeExit 1),
      outWritten := "JUNK", errWritten := "" }
  else
    { executorErr := none, streamErr := none, outWritten := "DATA", errWritten := "" }

/-- Remote behaviour where every attempt needs 3 seconds and exits 1. -/

def slowFailEnv : Nat → TimedCmd := fun _ => { duration := 3, retCode := 1 }

/-! ### Helper lemmas -/
theorem splitNl_ne_nil (l : List Char) : splitNl l ≠ [] := by
  induction l with
  | nil => simp [splitNl]
  | cons c cs ih =>
    simp only [splitNl]
    split
    · simp
    · cases h : splitNl cs <;> simp

theorem goSplitLines_ne_nil (s : String) : goSplitLines s ≠ [] := by
  simpa [goSplitLines, List.map_eq_nil_iff] using splitNl_ne_nil s.data

theorem bucketStep_capacity (tb : TokenBucket) (e : BucketEvent) :
    (bucketStep tb e).capacity = tb.capacity := by
  cases e <;> simp only [bucketStep, Wait, refillTick] <;> split <;> rfl

theorem bucketStep_le (tb : TokenBucket) (e : BucketEvent)
    (h : tb.tokens ≤ tb.capacity) : (bucketStep tb e).tokens ≤ tb.capacity := by
  cases e with
  | wait =>
    show (Wait tb).tokens ≤ tb.capacity
    unfold Wait
    by_cases h0 : 0 < tb.tokens
    · rw [if_pos h0]
      exact le_trans (Nat.sub_le _ _) h
    · rw [if_neg h0]
      exact h
  | tick =>
    show (refillTick tb).tokens ≤ tb.capacity
    unfold refillTick
    by_cases h0 : tb.tokens < tb.capacity
    · rw [if_pos h0]
      exact h0
    · rw [if_neg h0]
      exact h

theorem runBucket_le (es : List BucketEvent) (tb : TokenBucket)
    (h : tb.tokens ≤ tb.capacity) :
    (runBucket tb es).tokens ≤ tb.capacity ∧
      (runBucket tb es).capacity = tb.capacity := by
  induction es generalizing tb with
  | nil => exact ⟨h, rfl⟩
  | cons e es ih =>
    have hcap := bucketStep_capacity tb e
    have hle := bucketStep_le tb e h
    have := ih (bucketStep tb e) (by rw [hcap]; exact hle)
    simpa [runBucket, hcap] using this

theorem asCodeExit_eq_none_of_deadline (e : GoError)
    (h : isDeadlineExceeded e = true) : asCodeExit e = none := by
  induction e <;> simp_all [isDeadlineExceeded, asCodeExit]

theorem execT_finish_le (dl t : Nat) (c : TimedCmd) (h : t ≤ dl) :
    (execT dl t c).finish ≤ dl := by
  unfold execT
  by_cases h2 : t + c.duration ≤ dl
  · rw [if_pos h2]
    exact h2
  · rw [if_neg h2]
    exact max_le h le_rfl

theorem listPodsBySelector_ok (api : ClusterAPI) (hf : api.failingSelectors = [])
    (g : Group) : listPodsBySelector api g.selector = .ok (groupMatches api g) := by
  simp [listPodsBySelector, hf, groupMatches]

theorem groupReps_cons (api : ClusterAPI) (g : Group) (gs : List Group) :
    groupReps api (g :: gs) = (groupMatches api g).take 1 ++ groupReps api gs := by
  unfold groupReps
  rw [List.filterMap_cons]
  cases h : groupMatches api g with
  | nil => rfl
  | cons p ps => rfl

theorem processGroups_reps (api : ClusterAPI) (hf : api.failingSelectors = [])
    (gs : List Group) : (processGroups api gs).1 = groupReps api gs := by
  induction gs with
  | nil => rfl
  | cons g gs ih =>
    rw [groupReps_cons, ← ih]
    simp only [processGroups, listPodsBySelector_ok api hf g]

theorem inSomeGroup_cons (api : ClusterAPI) (g : Group) (gs : List Group) (n : String) :
    inSomeGroup api (g :: gs) n =
      (((groupMatches api g).map (fun p => p.name)).contains n || inSomeGroup api gs n) := by
  simp [inSomeGroup, List.any_cons]

theorem processGroups_contains (api : ClusterAPI) (hf : api.failingSelectors = [])
    (gs : List Group) (n : String) :
    (processGroups api gs).2.contains n = inSomeGroup api gs n := by
  induction gs with
  | nil => rfl
  | cons g gs ih =>
    rw [inSomeGroup_cons, ← ih]
    simp only [processGroups, listPodsBySelector_ok api hf g]
    simp [List.contains_eq_any_beq, List.any_append]

theorem processGroups_filter (api : ClusterAPI) (gs : List Group) :
    processGroups api gs =
      processGroups api (gs.filter (fun g =>
        !(api.failingSelectors.contains g.selector) &&
          !(groupMatches api g).isEmpty)) := by
  induction gs with
  | nil => rfl
  | cons g gs ih =>
    rw [List.filter_cons]
    cases hc : api.failingSelectors.contains g.selector with
    | true =>
      have hsel : listPodsBySelector api g.selector = .error "listing failed" := by
        unfold listPodsBySelector
        rw [hc]
        rfl
      simp only [processGroups, hsel]
      simpa using ih
    | false =>
      have hsel : listPodsBySelector api g.selector = .ok (groupMatches api g) := by
        unfold listPodsBySelector groupMatches
        rw [hc]
        rfl
      cases hm : groupMatches api g with
      | nil =>
        simp only [processGroups, hsel, hm]
        simpa using ih
      | cons p ps =>
        simp only [List.isEmpty_cons, Bool.not_false, Bool.true_and]
        rw [if_pos trivial]
        simp only [processGroups, hsel, hm]
        simp [ih]

/-! ### Claim theorems -/

/-- C1 (amended): when the three group enumerations and the ground-truth
listing succeed and no per-group pod listing fails, `GetUniquePods` returns
the ground-truth count of all pods in the namespace together with one
representative — the first match — per replica group (deployments, then
stateful sets, then daemon sets) whose selector matches at least one pod,
followed by every pod matching no group's selector, in groups-first then
standalone-remainder order.  The list can contain duplicates when two groups
share the same first matching pod (see the counterexample), which is the one
point where the original claim fails. -/
theorem getUniquePods_characterization (api : ClusterAPI)
    (ds ss dss : List Group)
    (hf : api.failingSelectors = [])
    (h1 : api.deploymentsRes = .ok ds)
    (h2 : api.statefulSetsRes = .ok ss)
    (h3 : api.daemonSetsRes = .ok dss)
    (h4 : api.groundListingErr = none) :
    GetUniquePods api =
      (api.pods.length,
       groupReps api ds ++ groupReps api ss ++ groupReps api dss ++
         api.pods.filter (fun p =>
           !(inSomeGroup api ds p.name) && !(inSomeGroup api ss p.name) &&
             !(inSomeGroup api dss p.name)),
       none) := by
  have hall : listAllPods api = .ok api.pods := by simp [listAllPods, h4]
  simp only [GetUniquePods, h1, h2, h3, hall]
  rw [processGroups_reps api hf ds, processGroups_reps api hf ss,
    processGroups_reps api hf dss]
  have hfil : api.pods.filter (fun p =>
      !((processGroups api ds).2.contains p.name) &&
        !((processGroups api ss).2.contains p.name) &&
        !((processGroups api dss).2.contains p.name)) =
      api.pods.filter (fun p =>
        !(inSomeGroup api ds p.name) && !(inSomeGroup api ss p.name) &&
          !(inSomeGroup api dss p.name)) := by
    apply List.filter_congr
    intro p _
    rw [processGroups_contains api hf ds, processGroups_contains api hf ss,
      processGroups_contains api hf dss]
  rw [hfil]

/-- Witness for C1: `getUniquePods_characterization` evaluated on the spec's
two-groups-plus-standalone scenario (6 pods in total, one shared). -/
theorem getUniquePods_characterization_witness :
    GetUniquePods specScenarioApi =
      (6, [{ name := "unit-a-0", labels := [("g1", "y")] },
           { name := "unit-shared", labels := [("g1", "y"), ("g2", "y")] },
           { name := "standalone", labels := [] }], none) := by
  have h := getUniquePods_characterization specScenarioApi
    [{ selector := [("g1", "y")] }, { selector := [("g2", "y")] }] [] [] rfl rfl rfl rfl rfl
  exact h.trans (by decide)

/-- Counterexample to C1 as stated: with two deployments whose selectors both
match the single pod `unit-a` first, the representative list contains that
pod twice — the output is not duplicate-free. -/
theorem getUniquePods_duplicates_counterexample :
    (GetUniquePods dupSelectorApi).2.1 =
      [{ name := "unit-a", labels := [("app", "x")] },
       { name := "unit-a", labels := [("app", "x")] }] ∧
      ¬ (GetUniquePods dupSelectorApi).2.1.Nodup := by
  constructor
  · decide
  · decide

/-- C2: `GetExitCode` on an error wrapping a process-exit failure with code N
returns N together with the fixed table's description of N when present, and
the text `Exit code N description not found!` otherwise; on an error that
does not wrap a process-exit failure it returns `(InternalAppError, "")`.
In particular 137 maps to the SIGKILL text and 200 to the not-found text. -/
theorem getExitCode_classifies :
    (∀ (err : GoError) (n : Int), asCodeExit err = some n →
        GetExitCode err =
          (n, (exitCodeDescriptions n).getD
                ("Exit code " ++ toString n ++ " description not found!"))) ∧
    (∀ err : GoError, asCodeExit err = none →
        GetExitCode err = (InternalAppError, "")) ∧
    GetExitCode (.codeExit 137) = (137, "Fatal error signal 9 (SIGKILL)") ∧
    GetExitCode (.wrapped "command failed" (.codeExit 200)) =
      (200, "Exit code 200 description not found!") ∧
    GetExitCode (.errMsg "error dialing backend") = (InternalAppError, "") := by
  refine ⟨?_, ?_, by decide, by decide, by decide⟩
  · intro err n h
    unfold GetExitCode
    rw [h]
    cases hd : exitCodeDescriptions n <;> simp [hd]
  · intro err h
    unfold GetExitCode
    rw [h]

/-- Witness for C2: evaluating `getExitCode_classifies` at concrete errors. -/
theorem getExitCode_classifies_witness :
    GetExitCode (.wrapped "outer" (.codeExit 50)) =
      (50, "Exit code 50 description not found!") := by
  have h := getExitCode_classifies.1 (.wrapped "outer" (.codeExit 50)) 50 rfl
  simpa using h

/-- C3 (amended): when the stream ends because the supplied deadline expired
(the stream error satisfies `errors.Is(err, context.DeadlineExceeded)`),
`Exec` — the duration-based entry point — returns `ExecutionTimeOut` and
retains the partial stdout/stderr captured so far; `ExecWithContext` — the
context-based entry point — performs no such remapping and returns
`InternalAppError` (the non-exit-code classification), also retaining the
partial stdout/stderr. -/
theorem exec_deadline_classification (env : StreamEnv) (p c : String) (e : GoError)
    (hx : env.executorErr = none) (hs : env.streamErr = some e)
    (hd : isDeadlineExceeded e = true) :
    (Exec env p c).RetCode = ExecutionTimeOut ∧
    (Exec env p c).Stdout = goSplitLines env.outWritten ∧
    (Exec env p c).Stderr = goSplitLines env.errWritten ∧
    (ExecWithContext env p c).RetCode = InternalAppError ∧
    (ExecWithContext env p c).Stdout = goSplitLines env.outWritten ∧
    (ExecWithContext env p c).Stderr = goSplitLines env.errWritten := by
  have hnone := asCodeExit_eq_none_of_deadline e hd
  simp [Exec, ExecWithContext, execStream, NewExecutionStatus, hx, hs, hnone, hd]

/-- Witness for C3: `exec_deadline_classification` at a concrete deadline
expiry. -/
theorem exec_deadline_classification_witness :
    (Exec { executorErr := none, streamErr := some (.wrapped "stream" .deadlineExceeded),
            outWritten := "par", errWritten := "" } "p" "c").RetCode = ExecutionTimeOut :=
  (exec_deadline_classification
    { executorErr := none, streamErr := some (.wrapped "stream" .deadlineExceeded),
      outWritten := "par", errWritten := "" } "p" "c"
    (.wrapped "stream" .deadlineExceeded) rfl rfl rfl).1

/-- Counterexample to C3 as stated: on deadline expiry the context-based
entry point `ExecWithContext` reports `InternalAppError`, not the
`ExecutionTimeOut` sentinel the claim promises for both entry points. -/
theorem execWithContext_timeout_counterexample :
    (ExecWithContext
        { executorErr := none, streamErr := some .deadlineExceeded,
          outWritten := "partial out", errWritten := "partial err" }
        "pod-a" "ctr").RetCode = InternalAppError ∧
      InternalAppError ≠ ExecutionTimeOut := by
  constructor
  · decide
  · decide

/-- C4: a bucket built by `NewTokenBucket` starts with `burst` tokens, the
token count (a natural number, hence never negative) never exceeds `burst`
under any interleaving of `Wait` consumptions and refill ticks, a refill
tick on a full bucket is dropped (state unchanged), and a tick never removes
tokens — only a `Wait` consumption does, by exactly one. -/
theorem tokenBucket_invariant :
    (∀ rate burst : Nat, (NewTokenBucket rate burst).tokens = burst ∧
        (NewTokenBucket rate burst).capacity = burst) ∧
    (∀ (rate burst : Nat) (es : List BucketEvent),
        (runBucket (NewTokenBucket rate burst) es).tokens ≤ burst) ∧
    (∀ tb : TokenBucket, tb.tokens = tb.capacity → refillTick tb = tb) ∧
    (∀ tb : TokenBucket, tb.tokens ≤ (refillTick tb).tokens) ∧
    (∀ tb : TokenBucket, 0 < tb.tokens →
        (Wait tb).tokens = tb.tokens - 1 ∧ (Wait tb).tokens < tb.tokens) := by
  refine ⟨fun _ _ => ⟨rfl, rfl⟩, ?_, ?_, ?_, ?_⟩
  · intro rate burst es
    exact (runBucket_le es (NewTokenBucket rate burst) (le_refl _)).1
  · intro tb h
    simp [refillTick, h]
  · intro tb
    unfold refillTick
    split <;> simp
  · intro tb h
    unfold Wait
    rw [if_pos h]
    exact ⟨rfl, by simpa using Nat.sub_lt h Nat.one_pos⟩

/-- Witness for C4: `tokenBucket_invariant` evaluated on a concrete bucket
and event trace. -/
theorem tokenBucket_invariant_witness :
    (runBucket (NewTokenBucket 10 5)
        [.wait, .wait, .tick, .wait, .tick, .tick, .tick, .tick, .tick]).tokens ≤ 5 ∧
      refillTick { capacity := 3, tokens := 3 } = { capacity := 3, tokens := 3 } ∧
      (Wait { capacity := 3, tokens := 2 }).tokens = 1 :=
  ⟨tokenBucket_invariant.2.1 10 5 _,
   tokenBucket_invariant.2.2.1 { capacity := 3, tokens := 3 } rfl,
   (tokenBucket_invariant.2.2.2.2 { capacity := 3, tokens := 2 } (by decide)).1⟩

/-- C5 (amended): `ReadFile` issues at most four remote attempts in the
fixed order cat, no-op sed, `tail -n +1`, shell read-loop, stopping at the
first attempt whose exit code is 0, and returns the error of the last
attempt made; since one stdout buffer is shared by all attempts, the
returned string is the concatenation of the stdout of every attempt made up
to and including the first successful one — which equals the successful
attempt's own stdout only when the failed attempts wrote nothing (the one
point where the original claim fails, see the counterexample). -/
theorem readFile_chain (env : CmdEnv) (fp : String) :
    ((execStream (env (catCmd fp))).1.1 = Success →
       ReadFile env fp =
         (((execStream (env (catCmd fp))).2.1, (execStream (env (catCmd fp))).1.2),
          [catCmd fp])) ∧
    ((execStream (env (catCmd fp))).1.1 ≠ Success →
     (execStream (env (sedCmd fp))).1.1 = Success →
       ReadFile env fp =
         (((execStream (env (catCmd fp))).2.1 ++ (execStream (env (sedCmd fp))).2.1,
           (execStream (env (sedCmd fp))).1.2),
          [catCmd fp, sedCmd fp])) ∧
    ((execStream (env (catCmd fp))).1.1 ≠ Success →
     (execStream (env (sedCmd fp))).1.1 ≠ Success →
     (execStream (env (tailCmd fp))).1.1 = Success →
       ReadFile env fp =
         (((execStream (env (catCmd fp))).2.1 ++ (execStream (env (sedCmd fp))).2.1 ++
             (execStream (env (tailCmd fp))).2.1,
           (execStream (env (tailCmd fp))).1.2),
          [catCmd fp, sedCmd fp, tailCmd fp])) ∧
    ((execStream (env (catCmd fp))).1.1 ≠ Success →
     (execStream (env (sedCmd fp))).1.1 ≠ Success →
     (execStream (env (tailCmd fp))).1.1 ≠ Success →
       ReadFile env fp =
         (((execStream (env (catCmd fp))).2.1 ++ (execStream (env (sedCmd fp))).2.1 ++
             (execStream (env (tailCmd fp))).2.1 ++ (execStream (env (shReadLoopCmd fp))).2.1,
           (execStream (env (shReadLoopCmd fp))).1.2),
          [catCmd fp, sedCmd fp, tailCmd fp, shReadLoopCmd fp])) := by
  refine ⟨?_, ?_, ?_, ?_⟩
  · intro h1
    simp [ReadFile, h1]
  · intro h1 h2
    simp [ReadFile, h1, h2]
  · intro h1 h2 h3
    simp [ReadFile, h1, h2, h3]
  · intro h1 h2 h3
    simp [ReadFile, h1, h2, h3]

/-- Witness for C5: `readFile_chain` on a container lacking cat/sed/tail but
with a working shell — the first three attempts fail, the fourth succeeds
and its stdout `DATA` is returned with all four attempts traced. -/
theorem readFile_chain_witness :
    ReadFile shellOnlyEnv "/etc/hosts" =
      (("DATA", none),
       [catCmd "/etc/hosts", sedCmd "/etc/hosts", tailCmd "/etc/hosts",
        shReadLoopCmd "/etc/hosts"]) := by
  have h := (readFile_chain shellOnlyEnv "/etc/hosts").2.2.2
    (by decide) (by decide) (by decide)
  exact h.trans (by decide)

/-- Counterexample to C5 as stated: `cat` fails after writing `JUNK` to the
shared stdout buffer, the no-op sed succeeds writing `DATA`; `ReadFile`
returns `JUNKDATA`, not the successful attempt's captured stdout. -/
theorem readFile_accumulation_counterexample :
    (execStream (junkThenDataEnv (catCmd "/a"))).1.1 ≠ Success ∧
    (execStream (junkThenDataEnv (sedCmd "/a"))).1.1 = Success ∧
    (ReadFile junkThenDataEnv "/a").1.1 = "JUNKDATA" ∧
    (ReadFile junkThenDataEnv "/a").1.1 ≠
      (execStream (junkThenDataEnv (sedCmd "/a"))).2.1 := by
  refine ⟨by decide, by decide, by decide, by decide⟩

/-- C6 (amended): `GetExitCodeDescription` returns non-empty text for exactly
the 22 documented codes of the table that lie in [0,255]
(0, 1, 2, 126, 127, 128, 129, 130, 131-143, 255) and the empty string for
every other code in [0,255], including 200 and 50. -/
theorem getExitCodeDescription_documented_iff :
    (∀ n : Nat, n < 256 →
        (GetExitCodeDescription (n : Int) ≠ "" ↔ (n : Int) ∈ documentedCodes)) ∧
    documentedCodes.length = 22 ∧ documentedCodes.Nodup ∧
    (∀ c ∈ documentedCodes, 0 ≤ c ∧ c ≤ 255) ∧
    GetExitCodeDescription 200 = "" ∧ GetExitCodeDescription 50 = "" := by
  set_option maxRecDepth 4096 in
  refine ⟨by decide, by decide, by decide, by decide, by decide, by decide⟩

/-- Witness for C6 (amended): code 137 is documented (non-empty description),
via `getExitCodeDescription_documented_iff`. -/
theorem getExitCodeDescription_documented_iff_witness :
    GetExitCodeDescription ((137 : Nat) : Int) ≠ "" :=
  (getExitCodeDescription_documented_iff.1 137 (by decide)).mpr (by decide)

/-- Counterexample to C6 as stated: the claim lists exit code 1 among the
undocumented codes, but the table documents code 1 as
`General error, unspecified error`, so `GetExitCodeDescription 1` is
non-empty. -/
theorem getExitCodeDescription_code1_counterexample :
    GetExitCodeDescription 1 = "General error, unspecified error" ∧
      GetExitCodeDescription 1 ≠ "" := by
  constructor <;> decide

/-- C7: `NewExecutionStatus` fills `Error`, `Stdout` and `Stderr` by
splitting the corresponding string on newline; `"a\nb\n"` yields
`["a", "b", ""]`, the empty string yields `[""]`, and the resulting
sequences are never empty. -/
theorem newExecutionStatus_splits_lines :
    (∀ (pod container : String) (rc : ExitCode) (er so se : String),
        (NewExecutionStatus pod container rc er so se).Error = goSplitLines er ∧
        (NewExecutionStatus pod container rc er so se).Stdout = goSplitLines so ∧
        (NewExecutionStatus pod container rc er so se).Stderr = goSplitLines se) ∧
    goSplitLines "a\nb\n" = ["a", "b", ""] ∧
    goSplitLines "" = [""] ∧
    (∀ (pod container : String) (rc : ExitCode) (er so se : String),
        (NewExecutionStatus pod container rc er so se).Error ≠ [] ∧
        (NewExecutionStatus pod container rc er so se).Stdout ≠ [] ∧
        (NewExecutionStatus pod container rc er so se).Stderr ≠ []) := by
  refine ⟨fun _ _ _ _ _ _ => ⟨rfl, rfl, rfl⟩, by decide, by decide,
    fun pod container rc er so se =>
      ⟨goSplitLines_ne_nil er, goSplitLines_ne_nil so, goSplitLines_ne_nil se⟩⟩

/-- C8: in `GetUniquePods`, a pod-listing failure for one group's members is
swallowed — the group contributes nothing and enumeration continues, exactly
as if the group (and any group with zero matches) were absent — and the call
still succeeds; but a failure enumerating the deployments, the stateful
sets, or the daemon sets themselves, or a failure of the final ground-truth
pod listing, aborts the whole call with that error, a zero count and an
empty list. -/
theorem getUniquePods_error_policy :
    (∀ (api : ClusterAPI) (e : String), api.deploymentsRes = .error e →
        GetUniquePods api = (0, [], some e)) ∧
    (∀ (api : ClusterAPI) (ds : List Group) (e : String),
        api.deploymentsRes = .ok ds → api.statefulSetsRes = .error e →
        GetUniquePods api = (0, [], some e)) ∧
    (∀ (api : ClusterAPI) (ds ss : List Group) (e : String),
        api.deploymentsRes = .ok ds → api.statefulSetsRes = .ok ss →
        api.daemonSetsRes = .error e →
        GetUniquePods api = (0, [], some e)) ∧
    (∀ (api : ClusterAPI) (ds ss dss : List Group) (e : String),
        api.deploymentsRes = .ok ds → api.statefulSetsRes = .ok ss →
        api.daemonSetsRes = .ok dss → api.groundListingErr = some e →
        GetUniquePods api = (0, [], some e)) ∧
    (∀ (api : ClusterAPI) (ds ss dss : List Group),
        api.deploymentsRes = .ok ds → api.statefulSetsRes = .ok ss →
        api.daemonSetsRes = .ok dss → api.groundListingErr = none →
        (GetUniquePods api).2.2 = none) ∧
    (∀ (api : ClusterAPI) (gs : List Group),
        processGroups api gs =
          processGroups api (gs.filter (fun g =>
            !(api.failingSelectors.contains g.selector) &&
              !(groupMatches api g).isEmpty))) := by
  refine ⟨?_, ?_, ?_, ?_, ?_, ?_⟩
  · intro api e h
    simp [GetUniquePods, h]
  · intro api ds e h1 h2
    simp [GetUniquePods, h1, h2]
  · intro api ds ss e h1 h2 h3
    simp [GetUniquePods, h1, h2, h3]
  · intro api ds ss dss e h1 h2 h3 h4
    simp [GetUniquePods, h1, h2, h3, listAllPods, h4]
  · intro api ds ss dss h1 h2 h3 h4
    simp [GetUniquePods, h1, h2, h3, listAllPods, h4]
  · intro api gs
    exact processGroups_filter api gs

/-- Witness for C8: `getUniquePods_error_policy` on a namespace whose
deployments enumeration fails. -/
theorem getUniquePods_error_policy_witness :
    GetUniquePods failingDeploymentsApi = (0, [], some "deployments listing failed") :=
  getUniquePods_error_policy.1 failingDeploymentsApi _ rfl

/-- C9 (amended): each file-probe operation creates a single 5-second
deadline at entry which is shared by all of its remote attempts, so the
whole operation — not each attempt — finishes within 5 seconds of its
start; an attempt gets no fresh deadline of its own. -/
theorem probe_shared_deadline (env : Nat → TimedCmd) (t0 : Nat) :
    (ReadFileT env t0).1 ≤ t0 + probeTimeout ∧
    (CheckIfFilePathIsReadableT env t0).1 ≤ t0 + probeTimeout ∧
    (CheckIfFilePathExistsT env t0).1 ≤ t0 + probeTimeout := by
  have h1 : (execT (t0 + probeTimeout) t0 (env 0)).finish ≤ t0 + probeTimeout :=
    execT_finish_le _ _ _ (Nat.le_add_right _ _)
  have h2 := execT_finish_le (t0 + probeTimeout) _ (env 1) h1
  have h3 := execT_finish_le (t0 + probeTimeout) _ (env 2) h2
  have h4 := execT_finish_le (t0 + probeTimeout) _ (env 3) h3
  refine ⟨?_, ?_, ?_⟩
  · simp only [ReadFileT]
    split
    · exact h1
    · split
      · exact h2
      · split
        · exact h3
        · exact h4
  · simp only [CheckIfFilePathIsReadableT]
    split
    · exact h1
    · exact h2
  · simp only [CheckIfFilePathExistsT]
    split
    · exact h1
    · exact h2

/-- Counterexample to C9 as stated: with every remote command needing 3
seconds, the second `ReadFile` attempt is cut off by the shared deadline
(timed out at t = 5) even though its own duration is below 5 seconds, and
the whole chain ends at t = 5 — attempts are not independently bounded by
their own 5-second deadlines. -/
theorem probe_per_attempt_deadline_counterexample :
    (slowFailEnv 1).duration < probeTimeout ∧
    (ReadFileT slowFailEnv 0).2 =
      [{ finish := 3, retCode := 1, timedOut := false },
       { finish := 5, retCode := InternalAppError, timedOut := true },
       { finish := 5, retCode := InternalAppError, timedOut := true },
       { finish := 5, retCode := InternalAppError, timedOut := true }] ∧
    (ReadFileT slowFailEnv 0).1 = 5 := by
  refine ⟨by decide, by decide, by decide⟩

/-- C10: `CheckUtilInContainer` reports a utility present exactly when the
classified exit status of running it differs from `CommandNotFound` (127),
`CommandCannotExecute` (126) and `InternalAppError` (-1); a utility that
runs and exits 1 or 2 is reported present, while exit 127, exit 126 or a
transport failure is reported absent. -/
theorem checkUtilInContainer_iff :
    (∀ (env : CmdEnv) (util : String),
        CheckUtilInContainer env util = true ↔
          ((execStream (env [util])).1.1 ≠ CommandNotFound ∧
           (execStream (env [util])).1.1 ≠ CommandCannotExecute ∧
           (execStream (env [util])).1.1 ≠ InternalAppError)) ∧
    CheckUtilInContainer (fun _ => ⟨none, some (.codeExit 1), "", ""⟩) "gzip" = true ∧
    CheckUtilInContainer (fun _ => ⟨none, some (.codeExit 2), "", ""⟩) "gzip" = true ∧
    CheckUtilInContainer (fun _ => ⟨none, none, "", ""⟩) "gzip" = true ∧
    CheckUtilInContainer (fun _ => ⟨none, some (.codeExit 127), "", ""⟩) "gzip" = false ∧
    CheckUtilInContainer (fun _ => ⟨none, some (.codeExit 126), "", ""⟩) "gzip" = false ∧
    CheckUtilInContainer (fun _ => ⟨none, some (.errMsg "error dialing backend"), "", ""⟩)
        "gzip" = false := by
  refine ⟨?_, by decide, by decide, by decide, by decide, by decide, by decide⟩
  intro env util
  simp [CheckUtilInContainer, Bool.and_eq_true, bne_iff_ne, and_assoc]

end K8sExec
